import Mathlib

/-!
Shallow embedding of the prediction-backend core (ingestion, date parsing,
forecast post-processing, oracle-response handling, result grading) together
with theorems checking the natural-language specification against it.

Conventions used throughout:
* JavaScript numbers are modelled as exact rationals (`ℚ`); all operations the
  claims exercise (comparisons, `Math.max`/`Math.min`, `JSON` number literals)
  are order/field operations that agree with IEEE doubles on the inputs used.
* `null`/`undefined` values are modelled with `Option`; a JS string field that
  can be absent or empty ("falsy") is modelled as noted at each definition.
* UTC instants are modelled as whole seconds since the Unix epoch (`Int`);
  JavaScript uses milliseconds, a constant scale factor that no claim observes.
-/

/-! ## A model of JSON values and of `JSON.parse`

`Jv` is the type of parsed JSON values.  The parser below models the strict
ECMA-404 grammar accepted by `JSON.parse`: optional surrounding whitespace, no
trailing input, strict number syntax (no leading zeros, at least one digit in
fraction/exponent), string escapes, and last-key-wins duplicate object keys
(the latter is realised by `Jv.getProp` reading the last binding). -/

inductive Jv where
  | null : Jv
  | bool : Bool → Jv
  | num : ℚ → Jv
  | str : String → Jv
  | arr : List Jv → Jv
  | obj : List (String × Jv) → Jv

/-- Last-binding-wins property lookup, matching the value `JSON.parse` retains
for duplicate keys. -/
def Jv.getProp (l : List (String × Jv)) (k : String) : Option Jv :=
  l.foldl (fun acc kv => if kv.1 = k then some kv.2 else acc) none

def isJsonWs (c : Char) : Bool :=
  c = ' ' || c = '\t' || c = '\n' || c = '\r'

def skipWs (cs : List Char) : List Char :=
  cs.dropWhile isJsonWs

def isDigitChar (c : Char) : Bool :=
  '0' ≤ c && c ≤ '9'

def digitVal (c : Char) : Nat := c.toNat - '0'.toNat

def digitsToNat (l : List Char) : Nat :=
  l.foldl (fun acc c => 10 * acc + digitVal c) 0

def isHexChar (c : Char) : Bool :=
  isDigitChar c || ('a' ≤ c && c ≤ 'f') || ('A' ≤ c && c ≤ 'F')

def hexVal (c : Char) : Nat :=
  if isDigitChar c then digitVal c
  else if 'a' ≤ c && c ≤ 'f' then c.toNat - 'a'.toNat + 10
  else c.toNat - 'A'.toNat + 10

def hexToNat (l : List Char) : Nat :=
  l.foldl (fun acc c => 16 * acc + hexVal c) 0

/-- Parse a JSON string body (after the opening quote), fuelled. Returns the
decoded characters and the remaining input after the closing quote. -/
def parseStringBody : Nat → List Char → Option (List Char × List Char)
  | 0, _ => none
  | _, [] => none
  | fuel + 1, c :: rest =>
    if c = '"' then some ([], rest)
    else if c = '\\' then
      match rest with
      | [] => none
      | e :: rest2 =>
        if e = '"' || e = '\\' || e = '/' then
          (parseStringBody fuel rest2).map (fun p => (e :: p.1, p.2))
        else if e = 'b' then
          (parseStringBody fuel rest2).map (fun p => (Char.ofNat 8 :: p.1, p.2))
        else if e = 'f' then
          (parseStringBody fuel rest2).map (fun p => (Char.ofNat 12 :: p.1, p.2))
        else if e = 'n' then
          (parseStringBody fuel rest2).map (fun p => ('\n' :: p.1, p.2))
        else if e = 'r' then
          (parseStringBody fuel rest2).map (fun p => ('\r' :: p.1, p.2))
        else if e = 't' then
          (parseStringBody fuel rest2).map (fun p => ('\t' :: p.1, p.2))
        else if e = 'u' then
          match rest2 with
          | h1 :: h2 :: h3 :: h4 :: rest3 =>
            if isHexChar h1 && isHexChar h2 && isHexChar h3 && isHexChar h4 then
              let code := hexToNat [h1, h2, h3, h4]
              if code < 0xd800 ∨ (0xdfff < code ∧ code < 0x110000) then
                (parseStringBody fuel rest3).map (fun p => (Char.ofNat code :: p.1, p.2))
              else none
            else none
          | _ => none
        else none
    else if c.toNat < 0x20 then none
    else (parseStringBody fuel rest).map (fun p => (c :: p.1, p.2))

/-- The exact rational value of a decimal literal with integer digits `i`,
fraction digits `f` and signed decimal exponent: the scaled integer mantissa
over the appropriate power of ten. -/
def decimalValue (neg : Bool) (intDigits fracDigits : List Char) (ev : Int) : ℚ :=
  let mantissaNat : Nat := digitsToNat intDigits * 10 ^ fracDigits.length + digitsToNat fracDigits
  let mantissa : Int := if neg then -(mantissaNat : Int) else (mantissaNat : Int)
  let e : Int := ev - fracDigits.length
  if 0 ≤ e then Rat.divInt (mantissa * 10 ^ e.toNat) 1
  else Rat.divInt mantissa ((10 : Int) ^ (-e).toNat)

/-- Parse a JSON number per the strict ECMA-404 grammar, returning its exact
rational value. -/
def parseNumber (cs : List Char) : Option (ℚ × List Char) :=
  let (neg, cs1) :=
    match cs with
    | '-' :: rest => (true, rest)
    | _ => (false, cs)
  let intDigits := cs1.takeWhile isDigitChar
  let cs2 := cs1.dropWhile isDigitChar
  if intDigits.isEmpty then none
  else if intDigits.length > 1 && intDigits.headD '0' = '0' then none
  else
    let (fracDigits, cs3) :=
      match cs2 with
      | '.' :: rest =>
        let fd := rest.takeWhile isDigitChar
        ((if fd.isEmpty then none else some fd), rest.dropWhile isDigitChar)
      | _ => (some [], cs2)
    match fracDigits with
    | none => none
    | some fd =>
      let (expVal, cs4) :=
        match cs3 with
        | e :: rest =>
          if e = 'e' || e = 'E' then
            let (esign, rest1) :=
              match rest with
              | '-' :: r => ((-1 : Int), r)
              | '+' :: r => ((1 : Int), r)
              | _ => ((1 : Int), rest)
            let expDigits := rest1.takeWhile isDigitChar
            ((if expDigits.isEmpty then none
              else some (esign * (digitsToNat expDigits : Int))),
             rest1.dropWhile isDigitChar)
          else (some 0, cs3)
        | [] => (some 0, cs3)
      match expVal with
      | none => none
      | some ev => some (decimalValue neg intDigits fd ev, cs4)

mutual

/-- Fuelled parser for a single JSON value (leading whitespace already
consumed). -/
def parseValue : Nat → List Char → Option (Jv × List Char)
  | 0, _ => none
  | _ + 1, [] => none
  | fuel + 1, c :: rest =>
    if c = 'n' then
      match rest with
      | 'u' :: 'l' :: 'l' :: rest2 => some (Jv.null, rest2)
      | _ => none
    else if c = 't' then
      match rest with
      | 'r' :: 'u' :: 'e' :: rest2 => some (Jv.bool true, rest2)
      | _ => none
    else if c = 'f' then
      match rest with
      | 'a' :: 'l' :: 's' :: 'e' :: rest2 => some (Jv.bool false, rest2)
      | _ => none
    else if c = '"' then
      (parseStringBody rest.length rest).map (fun p => (Jv.str (String.mk p.1), p.2))
    else if c = '[' then
      match skipWs rest with
      | ']' :: rest2 => some (Jv.arr [], rest2)
      | cs2 => (parseElems fuel cs2).map (fun p => (Jv.arr p.1, p.2))
    else if c = Char.ofNat 123 then
      match skipWs rest with
      | cs2 =>
        if cs2.headD ' ' = Char.ofNat 125 then some (Jv.obj [], cs2.tail)
        else (parseMembers fuel cs2).map (fun p => (Jv.obj p.1, p.2))
    else
      (parseNumber (c :: rest)).map (fun p => (Jv.num p.1, p.2))

/-- Fuelled parser for the elements of a non-empty JSON array (first element
starts at the head of the input). -/
def parseElems : Nat → List Char → Option (List Jv × List Char)
  | 0, _ => none
  | fuel + 1, cs =>
    match parseValue fuel cs with
    | none => none
    | some (v, rest) =>
      match skipWs rest with
      | ',' :: rest2 =>
        (parseElems fuel (skipWs rest2)).map (fun p => (v :: p.1, p.2))
      | ']' :: rest2 => some ([v], rest2)
      | _ => none

/-- Fuelled parser for the members of a non-empty JSON object (first key
starts at the head of the input). -/
def parseMembers : Nat → List Char → Option (List (String × Jv) × List Char)
  | 0, _ => none
  | fuel + 1, cs =>
    match cs with
    | '"' :: rest =>
      match parseStringBody rest.length rest with
      | none => none
      | some (key, rest2) =>
        match skipWs rest2 with
        | ':' :: rest3 =>
          match parseValue fuel (skipWs rest3) with
          | none => none
          | some (v, rest4) =>
            match skipWs rest4 with
            | ',' :: rest5 =>
              (parseMembers fuel (skipWs rest5)).map
                (fun p => ((String.mk key, v) :: p.1, p.2))
            | c :: rest5 =>
              if c = Char.ofNat 125 then some ([(String.mk key, v)], rest5)
              else none
            | [] => none
        | _ => none
    | _ => none

end

/-- The model of `JSON.parse`: parse one value with surrounding whitespace and
reject any trailing input. -/
def jsonParse (s : String) : Option Jv :=
  let cs := skipWs s.data
  match parseValue (cs.length + 1) cs with
  | none => none
  | some (v, rest) => if (skipWs rest).isEmpty then some v else none

/-! ## `extractJSONFromText` (src/services/aiService.js)

Model of the oracle-response JSON extractor.  The JS function takes an
arbitrary value; `null`, `undefined`, non-strings and the empty string all
fail the `!text || typeof text !== 'string'` guard, so the model's input is
an `Option String` with `none` standing for every non-string input and the
empty string handled explicitly (it is falsy in JS). -/

/-- One step of `String.prototype.replace` with a global literal pattern:
non-overlapping, left-to-right.  Fuelled by the input length. -/
def replaceAllSub (pat : List Char) : Nat → List Char → List Char
  | 0, cs => cs
  | fuel + 1, cs =>
    match cs with
    | [] => []
    | c :: rest =>
      if pat.isPrefixOf cs then replaceAllSub pat fuel (cs.drop pat.length)
      else c :: replaceAllSub pat fuel rest

/-- `s.replace(/pat/g, '')` for a literal pattern. -/
def jsReplaceAll (s pat : String) : String :=
  String.mk (replaceAllSub pat.data s.data.length s.data)

def isJsTrimWs (c : Char) : Bool :=
  c = ' ' || c = '\t' || c = '\n' || c = '\r' || c = Char.ofNat 11 || c = Char.ofNat 12 ||
  c = Char.ofNat 0xa0 || c = Char.ofNat 0xfeff

/-- `String.prototype.trim`. -/
def jsTrim (s : String) : String :=
  String.mk (((s.data.dropWhile isJsTrimWs).reverse.dropWhile isJsTrimWs).reverse)

/-- The depth-counting scan of the extractor: starting at the first occurrence
of `opc`, update a bracket depth on each character and stop at the first
position where the depth returns to zero, yielding the candidate slice
(inclusive).  Brackets inside JSON strings are counted too, exactly as in the
source. -/
def balancedScanAux (opc clc : Char) (depth : Int) : List Char → Option (List Char)
  | [] => none
  | c :: rest =>
    let d := if c = opc then depth + 1 else if c = clc then depth - 1 else depth
    if d = 0 then some [c]
    else (balancedScanAux opc clc d rest).map (fun l => c :: l)

/-- `indexOf` plus the balanced scan: the candidate substring starting at the
first `opc`, if the depth ever returns to zero. -/
def extractBalanced (opc clc : Char) (cs : List Char) : Option (List Char) :=
  let tail := cs.dropWhile (fun c => c ≠ opc)
  if tail.isEmpty then none else balancedScanAux opc clc 0 tail

/-- Model of `extractJSONFromText`: strip markdown fences, trim, try a full
`JSON.parse`; else try the first balanced `[...]` slice; else the first
balanced `\x7b...\x7d` slice; else `null`. -/
def extractJSONFromText : Option String → Option Jv
  | none => none
  | some text =>
    if text = "" then none
    else
      let cleaned := jsTrim (jsReplaceAll (jsReplaceAll text "```json") "```")
      match jsonParse cleaned with
      | some v => some v
      | none =>
        match
          (match extractBalanced '[' ']' cleaned.data with
           | some cand => jsonParse (String.mk cand)
           | none => none) with
        | some v => some v
        | none =>
          match extractBalanced (Char.ofNat 123) (Char.ofNat 125) cleaned.data with
          | some cand => jsonParse (String.mk cand)
          | none => none

/-! ## Forecast generation (src/services/aiService.js)

The zod output schema, the model-fallback/retry loop `callGenerativeAI`, and
the clamping/confidence post-filter of `getPredictionsFromAI`. -/

structure OneXTwo where
  home : ℚ
  draw : ℚ
  away : ℚ
deriving Repr, DecidableEq

structure DoubleChance where
  homeOrDraw : ℚ
  homeOrAway : ℚ
  drawOrAway : ℚ
deriving Repr, DecidableEq

/-- A forecast object as validated by `GenerateMatchPredictionsOutputSchema`. -/
structure Forecast where
  oneXTwo : OneXTwo
  doubleChance : DoubleChance
  over05 : ℚ
  over15 : ℚ
  over25 : ℚ
  bttsYes : ℚ
  bttsNo : ℚ
  confidence : ℚ
  bucket : String
deriving Repr, DecidableEq

/-- The fixed bucket enumeration of the zod schema. -/
def bucketEnum : List String := ["vip", "daily2", "value5", "big10"]

/-- Read a numeric field of a JSON object (`z.number()` accepts exactly JSON
numbers). -/
def getNum (l : List (String × Jv)) (k : String) : Option ℚ :=
  match Jv.getProp l k with
  | some (Jv.num q) => some q
  | _ => none

/-- Model of `GenerateMatchPredictionsOutputSchema.parse`: succeeds exactly on
objects whose required fields are numbers (confidence within `[0,100]`) and
whose bucket is one of the enumeration; unknown extra keys are stripped, as
zod does by default. -/
def schemaParse : Jv → Option Forecast
  | Jv.obj l =>
    match Jv.getProp l "oneXTwo", Jv.getProp l "doubleChance" with
    | some (Jv.obj ox), some (Jv.obj dc) =>
      match getNum ox "home", getNum ox "draw", getNum ox "away",
            getNum dc "homeOrDraw", getNum dc "homeOrAway", getNum dc "drawOrAway" with
      | some h, some d, some a, some hd, some ha, some da =>
        match getNum l "over05", getNum l "over15", getNum l "over25",
              getNum l "bttsYes", getNum l "bttsNo", getNum l "confidence" with
        | some o05, some o15, some o25, some by_, some bn, some conf =>
          if 0 ≤ conf ∧ conf ≤ 100 then
            match Jv.getProp l "bucket" with
            | some (Jv.str b) =>
              if b ∈ bucketEnum then
                some { oneXTwo := { home := h, draw := d, away := a },
                       doubleChance := { homeOrDraw := hd, homeOrAway := ha, drawOrAway := da },
                       over05 := o05, over15 := o15, over25 := o25,
                       bttsYes := by_, bttsNo := bn, confidence := conf, bucket := b }
              else none
            | _ => none
          else none
        | _, _, _, _, _, _ => none
      | _, _, _, _, _, _ => none
    | _, _ => none
  | _ => none

/-- The fixed model priority list `aiModels`. -/
def aiModels : List String :=
  ["gemini-2.5-flash", "gemini-2.5-pro", "gemini-2.0-flash",
   "gemini-2.0-pro", "gemini-1.5-flash", "gemini-1.5-pro"]

/-- The inner retry budget of `callGenerativeAI` (`maxRetries = 1`, i.e. two
attempts, numbered 0 and 1, per model). -/
def maxRetries : Nat := 1

/-- One attempt of the inner loop: the oracle's raw response (`none` models a
thrown API error or a missing response), the empty-text check, JSON
extraction, and schema validation of the whole response (`parsed.map(item =>
outputSchema.parse(item))` throws as soon as any single item is invalid, so an
array validates only if every element does). -/
def attemptParse (response : Option String) : Option (List Forecast) :=
  match response with
  | none => none
  | some text =>
    if jsTrim text = "" then none
    else
      match extractJSONFromText (some text) with
      | none => none
      | some (Jv.arr items) => items.mapM schemaParse
      | some v => (schemaParse v).map (fun f => [f])

/-- The attempt loop for one model: attempt 0, then on failure attempt 1; a
second failure abandons the model (`break`). -/
def tryModelAttempts (oracle : String → Nat → Option String) (modelName : String) :
    Option (List Forecast) :=
  match attemptParse (oracle modelName 0) with
  | some l => some l
  | none => attemptParse (oracle modelName 1)

/-- The model-fallback loop over a list of model names. -/
def callModelsLoop (oracle : String → Nat → Option String) :
    List String → Except String (List Forecast)
  | [] => Except.error "AI: All models failed to generate predictions."
  | m :: rest =>
    match tryModelAttempts oracle m with
    | some l => Except.ok l
    | none => callModelsLoop oracle rest

/-- Model of `callGenerativeAI`: the oracle is a function from model name and
attempt number to the raw response text.  Returns the forecasts of the first
fully valid attempt, or the final error once every model has exhausted its
retry budget. -/
def callGenerativeAI (oracle : String → Nat → Option String) :
    Except String (List Forecast) :=
  callModelsLoop oracle aiModels

/-- `Math.max(lo, Math.min(hi, x))`. -/
def clampQ (lo hi x : ℚ) : ℚ := max lo (min hi x)

/-- The defensive normalisation applied to each validated forecast by
`getPredictionsFromAI`: every probability clamped to `[0,1]`, confidence to
`[0,100]`. -/
def normalizeForecast (p : Forecast) : Forecast :=
  { oneXTwo := { home := clampQ 0 1 p.oneXTwo.home,
                 draw := clampQ 0 1 p.oneXTwo.draw,
                 away := clampQ 0 1 p.oneXTwo.away },
    doubleChance := { homeOrDraw := clampQ 0 1 p.doubleChance.homeOrDraw,
                      homeOrAway := clampQ 0 1 p.doubleChance.homeOrAway,
                      drawOrAway := clampQ 0 1 p.doubleChance.drawOrAway },
    over05 := clampQ 0 1 p.over05,
    over15 := clampQ 0 1 p.over15,
    over25 := clampQ 0 1 p.over25,
    bttsYes := clampQ 0 1 p.bttsYes,
    bttsNo := clampQ 0 1 p.bttsNo,
    confidence := clampQ 0 100 p.confidence,
    bucket := p.bucket }

/-- The post-processing of `getPredictionsFromAI` after `callGenerativeAI`
returns: clamp every forecast, then keep only those with confidence at least
90 (the configured minimum). -/
def postProcessForecasts (preds : List Forecast) : List Forecast :=
  (preds.map normalizeForecast).filter (fun p => 90 ≤ p.confidence)

/-- Model of `getPredictionsFromAI` as a function of the oracle: generate via
the model-fallback loop, then clamp and confidence-filter.  (The prompt
construction and the head-to-head selection feed only the oracle's input and
are irrelevant to the claims about the returned list.) -/
def getPredictionsFromAI (oracle : String → Nat → Option String) :
    Except String (List Forecast) :=
  (callGenerativeAI oracle).map postProcessForecasts

/-! ## Date parsing (src/services/cronService.js, `parseGoalserveDate`)

`Date.UTC(year, monthIndex, day, hour, minute)` is modelled by civil-calendar
arithmetic on the proleptic Gregorian calendar, including ECMAScript's
normalisation of out-of-range month indices and days.  Instants are seconds
since the Unix epoch. -/

/-- Days from the Unix epoch (1970-01-01) to the civil date `y-m-d` in the
proleptic Gregorian calendar, for `1 ≤ m ≤ 12`; linear continuation in `d`
outside `[1, 31]` (which is exactly how ECMAScript's `MakeDay` treats a day
count). -/
def daysFromCivil (y m d : Int) : Int :=
  let y1 := if m ≤ 2 then y - 1 else y
  let era := Int.fdiv y1 400
  let yoe := y1 - era * 400
  let mp := Int.emod (m + 9) 12
  let doy := (153 * mp + 2) / 5 + d - 1
  let doe := yoe * 365 + yoe / 4 - yoe / 100 + doy
  era * 146097 + doe - 719468

/-- ECMAScript `MakeDay(year, monthIndex, day)`: the month index is
normalised into the year (floor-division and Euclidean remainder by 12), the
day may be any integer. -/
def makeDayJS (y mIdx d : Int) : Int :=
  daysFromCivil (y + Int.fdiv mIdx 12) (Int.emod mIdx 12 + 1) d

/-- `Date.UTC(y, mIdx, d, h, mi)` in seconds since the Unix epoch. -/
def dateUTCsec (y mIdx d h mi : Int) : Int :=
  makeDayJS y mIdx d * 86400 + h * 3600 + mi * 60

/-- The anchored regex test `/^\d\x7b1,2\x7d\.\d\x7b1,2\x7d\.\d\x7b4\x7d$/`,
phrased via splitting on `'.'`. -/
def ddmmTest (s : String) : Bool :=
  match (s.data.splitOn '.').map (fun l => (l.length, l.all isDigitChar)) with
  | [(n1, d1), (n2, d2), (n3, d3)] =>
    d1 && d2 && d3 && 1 ≤ n1 && n1 ≤ 2 && 1 ≤ n2 && n2 ≤ 2 && n3 = 4
  | _ => false

/-- `dateStr.split('.').map(v => parseInt(v, 10))` destructured as
`[day, month, year]`; only used after `ddmmTest` guarantees three all-digit
components. -/
def ddmmParts (s : String) : Int × Int × Int :=
  match s.data.splitOn '.' with
  | [a, b, c] => ((digitsToNat a : Int), (digitsToNat b : Int), (digitsToNat c : Int))
  | _ => (0, 0, 0)

/-- The anchored regex test `/^\d\x7b1,2\x7d:\d\x7b2\x7d$/`. -/
def timeTest (s : String) : Bool :=
  match (s.data.splitOn ':').map (fun l => (l.length, l.all isDigitChar)) with
  | [(n1, d1), (n2, d2)] => d1 && d2 && 1 ≤ n1 && n1 ≤ 2 && n2 = 2
  | _ => false

/-- `timeStr.split(':').map(v => parseInt(v, 10))` as `[hour, minute]`. -/
def timeParts (s : String) : Int × Int :=
  match s.data.splitOn ':' with
  | [a, b] => ((digitsToNat a : Int), (digitsToNat b : Int))
  | _ => (0, 0)

/-- The `let hour = 0, minute = 0; if (timeStr && /.../.test(timeStr)) ...`
defaulting: a missing, empty (falsy) or malformed time string yields
midnight. -/
def timeOrMidnight : Option String → Int × Int
  | none => (0, 0)
  | some ts => if ts ≠ "" && timeTest ts then timeParts ts else (0, 0)

/-- A conservative model of the ECMAScript `Date(string)` parser used by the
source's fallback branch, restricted to the standardised ISO-8601 forms
`YYYY-MM-DD` and `YYYY-MM-DDTHH:MM(:SS)?Z`; every other string is rejected
(`Invalid Date`).  The claims only exercise this model on strings that are
not dates at all, where real engines also reject. -/
def jsDateParse (s : String) : Option Int :=
  match s.data with
  | y1 :: y2 :: y3 :: y4 :: '-' :: m1 :: m2 :: '-' :: d1 :: d2 :: rest =>
    if [y1, y2, y3, y4, m1, m2, d1, d2].all isDigitChar then
      let y : Int := digitsToNat [y1, y2, y3, y4]
      let mo : Int := digitsToNat [m1, m2]
      let d : Int := digitsToNat [d1, d2]
      if 1 ≤ mo ∧ mo ≤ 12 ∧ 1 ≤ d ∧ d ≤ 31 then
        match rest with
        | [] => some (dateUTCsec y (mo - 1) d 0 0)
        | 'T' :: h1 :: h2 :: ':' :: mi1 :: mi2 :: rest2 =>
          if [h1, h2, mi1, mi2].all isDigitChar then
            let h : Int := digitsToNat [h1, h2]
            let mi : Int := digitsToNat [mi1, mi2]
            if h ≤ 23 ∧ mi ≤ 59 then
              match rest2 with
              | ['Z'] => some (dateUTCsec y (mo - 1) d h mi)
              | ':' :: s1 :: s2 :: ['Z'] =>
                if (isDigitChar s1 && isDigitChar s2) &&
                    (digitsToNat [s1, s2] : Int) ≤ 59 then
                  some (dateUTCsec y (mo - 1) d h mi + digitsToNat [s1, s2])
                else none
              | _ => none
            else none
          else none
        | _ => none
      else none
    else none
  | _ => none

/-- Model of `parseGoalserveDate(dateStr, timeStr)`.  `none` on either
argument stands for `null`/`undefined`; the empty string is falsy for both
guards. -/
def parseGoalserveDate (dateStr timeStr : Option String) : Option Int :=
  match dateStr with
  | none => none
  | some ds =>
    if ds = "" then none
    else if ddmmTest ds then
      let (d, m, y) := ddmmParts ds
      let (h, mi) := timeOrMidnight timeStr
      some (dateUTCsec y (m - 1) d h mi)
    else
      let maybe :=
        match timeStr with
        | some ts => if ts = "" then ds else ds ++ "T" ++ ts ++ "Z"
        | none => ds
      jsDateParse maybe

/-! ## Goalserve ingestion upsert (src/services/cronService.js,
`fetchAndStoreUpcomingMatches`)

The Match store is an association list keyed by `static_id`.
`Match.findOneAndUpdate({static_id}, matchDoc, {upsert: true, ...})` is
modelled as insert-or-`$set`: fields of the update document that are
`undefined` (modelled `none`) are stripped by Mongoose and leave the stored
value unchanged; defined fields overwrite it unconditionally.  The team
upserts of the loop touch only the Team store and the `homeTeam`/`awayTeam`
references and are elided; `status` is always defined in the update document
because the parser defaults it (`status: m.status || 'scheduled'`). -/

/-- A raw fixture as produced by `parseGoalserveMatches`: the fields of the
upsert path the claims exercise. -/
structure ParsedMatch where
  static_id : Int
  date : Option String
  time : Option String
  status : String
  league : Option String
deriving Repr, DecidableEq

/-- A stored Match record (the claim-relevant fields). -/
structure StoredMatch where
  status : String
  matchDateUtc : Option Int
  time : Option String
  league : Option String
deriving Repr, DecidableEq

/-- The `$set` merge of one upsert onto an existing record: `matchDateUtc`,
`time` and `league` are `matchDate || undefined`-style fields (skipped when
`none`), `status` always overwrites. -/
def applySet (old : StoredMatch) (st : String) (dt : Option Int)
    (tm lg : Option String) : StoredMatch :=
  { status := st,
    matchDateUtc := dt.orElse (fun _ => old.matchDateUtc),
    time := tm.orElse (fun _ => old.time),
    league := lg.orElse (fun _ => old.league) }

/-- `findOneAndUpdate({static_id}, doc, {upsert: true})` over the association
list store. -/
def upsertMatch (store : List (Int × StoredMatch)) (key : Int) (st : String)
    (dt : Option Int) (tm lg : Option String) : List (Int × StoredMatch) :=
  if store.any (fun kv => kv.1 = key) then
    store.map (fun kv => if kv.1 = key then (kv.1, applySet kv.2 st dt tm lg) else kv)
  else
    store ++ [(key, { status := st, matchDateUtc := dt, time := tm, league := lg })]

/-- The body of the ingestion loop for one parsed match: parse the kickoff
date (a `null` result is kept as an absent `matchDateUtc`, it does not skip
the fixture) and upsert by `static_id`. -/
def storeParsedMatch (store : List (Int × StoredMatch)) (m : ParsedMatch) :
    List (Int × StoredMatch) :=
  let matchDate := parseGoalserveDate m.date m.time
  upsertMatch store m.static_id m.status matchDate m.time m.league

/-- The ingestion loop of `fetchAndStoreUpcomingMatches` over a parsed batch
(the surrounding fetch, team upserts and new-match counting heuristic do not
affect the stored Match records). -/
def ingestGoalserveBatch (store : List (Int × StoredMatch))
    (ms : List ParsedMatch) : List (Int × StoredMatch) :=
  ms.foldl storeParsedMatch store

/-- Status lookup in the store. -/
def storeStatus (store : List (Int × StoredMatch)) (key : Int) : Option String :=
  (store.find? (fun kv => kv.1 = key)).map (fun kv => kv.2.status)

/-! ## Provider fallback orchestrators (src/unnamed/part_002 and part_004)

Each provider run is summarised by its outcome: `Except.error` models a
thrown error, `Except.ok n` a normal return whose aggregate counts `n` new
fixtures.  The orchestrators' control flow is exactly the nested
`try`/`catch` of the source. -/

/-- `fetchAndStoreUpcomingMatches` of src/unnamed/part_002 (lines 249-264):
the fallback provider runs only inside the `catch` of the primary; a fallback
error is swallowed, leaving the aggregate at zero.  The function itself never
throws. -/
def fetchAndStoreUpcoming (primary fallback : Except String Nat) : Nat :=
  match primary with
  | Except.ok n => n
  | Except.error _ =>
    match fallback with
    | Except.ok n => n
    | Except.error _ => 0

/-- `fetchAndStoreMatches` of src/unnamed/part_004 (lines 161-222), without
the optional history import: primary counts new matches, the fallback (run
only when the primary throws) counts new and updated matches. -/
def fetchAndStoreMatchesAgg (primary : Except String Nat)
    (fallback : Except String (Nat × Nat)) : Nat × Nat :=
  match primary with
  | Except.ok n => (n, 0)
  | Except.error _ =>
    match fallback with
    | Except.ok p => p
    | Except.error _ => (0, 0)

/-! ## Result grading (src/unnamed/part_004 `evaluatePredictionsForMatch`,
src/unnamed/part_021 `calculateWinner` / `applyPredictionStatus`)

A stored prediction is modelled by the two fields the graders read and write:
its 1X2 probability triple (reached as `p.outcomes?.oneXTwo`, `none` when the
outcome schema carries no triple) and its grading `status`.  A JS falsy
status (`undefined`/`null`/empty) is modelled as `""`. -/

structure GradePrediction where
  oneXTwo : Option OneXTwo
  status : String
deriving Repr, DecidableEq

/-- A Match as read by `evaluatePredictionsForMatch`; the claims restrict to
finished fixtures with non-null goal counts, so the goal fields are plain
integers. -/
structure GradeMatch where
  status : String
  homeGoals : Int
  awayGoals : Int
deriving Repr, DecidableEq

/-- `(match.homeGoals > match.awayGoals) ? 'home' : (match.homeGoals <
match.awayGoals) ? 'away' : 'draw'`. -/
def actualWinner (m : GradeMatch) : String :=
  if m.homeGoals > m.awayGoals then "home"
  else if m.homeGoals < m.awayGoals then "away"
  else "draw"

/-- `(oneXTwo.home > oneXTwo.away) ? 'home' : (oneXTwo.home < oneXTwo.away) ?
'away' : 'draw'`; when the triple is absent both JS comparisons are false, so
the result is `'draw'`. -/
def predictedWinnerJS (t : Option OneXTwo) : String :=
  match t with
  | some x =>
    if x.home > x.away then "home"
    else if x.home < x.away then "away"
    else "draw"
  | none => "draw"

/-- The per-prediction body of `evaluatePredictionsForMatch`: the status is
recomputed and persisted whenever it differs (the end state is the recomputed
status either way). -/
def gradeOne (m : GradeMatch) (p : GradePrediction) : GradePrediction :=
  { p with status := if predictedWinnerJS p.oneXTwo = actualWinner m then "won" else "lost" }

/-- Model of `evaluatePredictionsForMatch`: a fixture that is not `finished`
leaves every prediction untouched; otherwise every prediction of the fixture
is (re)graded, whatever its current status. -/
def evaluatePredictionsForMatch (m : GradeMatch) (preds : List GradePrediction) :
    List GradePrediction :=
  if m.status = "finished" then preds.map (gradeOne m) else preds

/-- A Match as read by `calculateWinner` (part_021), carrying the optional
full-time / extra-time / penalty sub-scores. -/
structure ResultMatch where
  status : String
  ft_score : Option Int
  ft_score_away : Option Int
  homeGoals : Option Int
  awayGoals : Option Int
  et_score : Option Int
  et_score_away : Option Int
  pen_score : Option Int
  pen_score_away : Option Int
deriving Repr, DecidableEq

/-- Model of `calculateWinner`: `null` unless the match is finished, then
full-time score first (`ft_score ?? homeGoals ?? 0`), extra time on a tie,
penalties on a further tie, else `'draw'`. -/
def calculateWinner (m : ResultMatch) : Option String :=
  if m.status = "finished" then
    let hs := (m.ft_score.orElse (fun _ => m.homeGoals)).getD 0
    let aws := (m.ft_score_away.orElse (fun _ => m.awayGoals)).getD 0
    if hs > aws then some "home"
    else if hs < aws then some "away"
    else
      let eh := m.et_score.getD 0
      let ea := m.et_score_away.getD 0
      if eh > ea then some "home"
      else if eh < ea then some "away"
      else
        let ph := m.pen_score.getD 0
        let pa := m.pen_score_away.getD 0
        if ph > pa then some "home"
        else if ph < pa then some "away"
        else some "draw"
  else none

/-- Model of `applyPredictionStatus`: without a computed winner the
predictions pass through; otherwise a prediction is assigned `won`/`lost`
only when it has a 1X2 triple and a falsy (empty) status — a prediction whose
status is already set, including `'pending'`, is returned unchanged. -/
def applyPredictionStatus (m : ResultMatch) (preds : List GradePrediction) :
    List GradePrediction :=
  match calculateWinner m with
  | none => preds
  | some actual =>
    preds.map (fun p =>
      match p.oneXTwo with
      | some _ =>
        if p.status = "" then
          { p with status := if predictedWinnerJS p.oneXTwo = actual then "won" else "lost" }
        else p
      | none => p)

/-! ## Definitions taken from the spec's words (for refinement comparisons) -/

/-- Modelled from the spec's words (claim C1): `predictedOutcome` as the
argmax of the triple `(home, draw, away)`, with a tie between two exactly
equal probabilities broken toward `draw`. -/
def specArgmaxOutcome (t : OneXTwo) : String :=
  if t.home > t.draw ∧ t.home > t.away then "home"
  else if t.away > t.draw ∧ t.away > t.home then "away"
  else "draw"

/-- Modelled from the spec's words: the actual outcome computed from the goal
counts. -/
def specActualOutcome (hg ag : Int) : String :=
  if hg > ag then "home" else if ag > hg then "away" else "draw"

/-- The amended predicted outcome (claims C1/C3/C9): computed from the home
and away probabilities only, `draw` when they are equal; the draw probability
is never consulted. -/
def homeAwayOutcome (t : OneXTwo) : String :=
  if t.home > t.away then "home" else if t.away > t.home then "away" else "draw"

/-! ## Claim theorems -/

/-- C3: grading determinism at the spec's concrete inputs — a finished 2-1
fixture grades a pending forecast with `oneXTwo = (0.6, 0.2, 0.2)` to `won`;
the same forecast with `awayGoals = 3` grades to `lost`. -/
theorem c3_grading_determinism :
    evaluatePredictionsForMatch { status := "finished", homeGoals := 2, awayGoals := 1 }
        [{ oneXTwo := some { home := 0.6, draw := 0.2, away := 0.2 }, status := "pending" }] =
      [{ oneXTwo := some { home := 0.6, draw := 0.2, away := 0.2 }, status := "won" }] ∧
    evaluatePredictionsForMatch { status := "finished", homeGoals := 2, awayGoals := 3 }
        [{ oneXTwo := some { home := 0.6, draw := 0.2, away := 0.2 }, status := "pending" }] =
      [{ oneXTwo := some { home := 0.6, draw := 0.2, away := 0.2 }, status := "lost" }] := by
  refine ⟨?_, ?_⟩
  · norm_num [evaluatePredictionsForMatch, gradeOne, predictedWinnerJS, actualWinner]
  · norm_num [evaluatePredictionsForMatch, gradeOne, predictedWinnerJS, actualWinner]
    decide

/-- C1 counterexample: the grader does not take the argmax of the triple.  For
a finished 1-1 fixture (actual outcome `draw`) and a pending forecast with
`oneXTwo = (0.3, 0.6, 0.1)`, the spec-side argmax is `draw`, equal to the
actual outcome, so the claim demands `won`; the code compares only home
against away and grades `lost`. -/
theorem c1_counterexample :
    specArgmaxOutcome { home := 0.3, draw := 0.6, away := 0.1 } = "draw" ∧
    specActualOutcome 1 1 = "draw" ∧
    evaluatePredictionsForMatch { status := "finished", homeGoals := 1, awayGoals := 1 }
        [{ oneXTwo := some { home := 0.3, draw := 0.6, away := 0.1 }, status := "pending" }] =
      [{ oneXTwo := some { home := 0.3, draw := 0.6, away := 0.1 }, status := "lost" }] ∧
    ("lost" : String) ≠ "won" := by
  refine ⟨?_, by norm_num [specActualOutcome], ?_, by decide⟩
  · norm_num [specArgmaxOutcome]
  · norm_num [evaluatePredictionsForMatch, gradeOne, predictedWinnerJS, actualWinner]
    decide

/-- C1 (amended): for every finished fixture, the grader maps each forecast to
the same forecast with status recomputed as `won` exactly when the
home-versus-away comparison outcome (`home` if `P(home) > P(away)`, `away` if
`P(away) > P(home)`, else `draw`; the draw probability is never consulted)
equals the actual outcome from the goal counts. -/
theorem c1_amended_grading (m : GradeMatch) (preds : List GradePrediction)
    (hfin : m.status = "finished") :
    List.Forall₂ (fun p q =>
        q.oneXTwo = p.oneXTwo ∧
        ∀ t, p.oneXTwo = some t →
          q.status =
            (if homeAwayOutcome t = specActualOutcome m.homeGoals m.awayGoals
             then "won" else "lost"))
      preds (evaluatePredictionsForMatch m preds) := by
  rw [evaluatePredictionsForMatch, if_pos hfin]
  induction preds with
  | nil => exact List.Forall₂.nil
  | cons p ps ih =>
    rw [List.map_cons]
    refine List.Forall₂.cons ⟨rfl, ?_⟩ ih
    intro t ht
    simp [gradeOne, predictedWinnerJS, ht, homeAwayOutcome, actualWinner, specActualOutcome]

/-- C1 witness: the amended grading theorem applied to the finished 2-1
fixture and a single pending forecast. -/
theorem c1_amended_grading_witness :
    ({ status := "finished", homeGoals := 2, awayGoals := 1 } : GradeMatch).status = "finished" ∧
    List.Forall₂ (fun (p q : GradePrediction) =>
        q.oneXTwo = p.oneXTwo ∧
        ∀ t, p.oneXTwo = some t →
          q.status = (if homeAwayOutcome t = specActualOutcome 2 1 then "won" else "lost"))
      [{ oneXTwo := some { home := 0.6, draw := 0.2, away := 0.2 }, status := "pending" }]
      (evaluatePredictionsForMatch { status := "finished", homeGoals := 2, awayGoals := 1 }
        [{ oneXTwo := some { home := 0.6, draw := 0.2, away := 0.2 }, status := "pending" }]) :=
  ⟨rfl, c1_amended_grading { status := "finished", homeGoals := 2, awayGoals := 1 }
    [{ oneXTwo := some { home := 0.6, draw := 0.2, away := 0.2 }, status := "pending" }] rfl⟩

/-- C9 counterexample: grading is not restricted to pending forecasts — a
forecast whose status is already `won` is re-graded (here to `lost`) by a
grading pass over a finished 2-1 fixture. -/
theorem c9_counterexample :
    evaluatePredictionsForMatch { status := "finished", homeGoals := 2, awayGoals := 1 }
        [{ oneXTwo := some { home := 0.1, draw := 0.2, away := 0.7 }, status := "won" }] =
      [{ oneXTwo := some { home := 0.1, draw := 0.2, away := 0.7 }, status := "lost" }] ∧
    ("won" : String) ≠ "lost" := by
  refine ⟨?_, by decide⟩
  norm_num [evaluatePredictionsForMatch, gradeOne, predictedWinnerJS, actualWinner]
  decide

/-- C9 (amended): re-running `evaluatePredictionsForMatch` over unchanged
match data is a no-op (the recomputation is deterministic in the stored
triple), and the read-path grader `applyPredictionStatus` assigns a status
only to forecasts whose status is empty, returning every other forecast —
including `pending`-free graded ones — unchanged. -/
theorem c9_amended_idempotence :
    (∀ (m : GradeMatch) (preds : List GradePrediction),
        evaluatePredictionsForMatch m (evaluatePredictionsForMatch m preds) =
          evaluatePredictionsForMatch m preds) ∧
    (∀ (m : ResultMatch) (preds : List GradePrediction),
        List.Forall₂ (fun p q => p.status ≠ "" → q = p)
          preds (applyPredictionStatus m preds)) := by
  constructor
  · intro m preds
    unfold evaluatePredictionsForMatch
    by_cases h : m.status = "finished"
    · simp only [if_pos h, List.map_map]
      rfl
    · simp only [if_neg h]
  · intro m preds
    unfold applyPredictionStatus
    cases hw : calculateWinner m with
    | none => exact List.forall₂_same.mpr (fun p _ _ => rfl)
    | some actual =>
      rw [List.forall₂_map_right_iff, List.forall₂_same]
      intro p _ hps
      cases hx : p.oneXTwo with
      | none => rfl
      | some t => simp [hps]

/-- C7 counterexample: a primary provider that returns normally with zero
fixtures does not trigger the fallback — the aggregate stays 0 even though
the fallback would have contributed 5 fixtures. -/
theorem c7_counterexample :
    fetchAndStoreUpcoming (Except.ok 0) (Except.ok 5) = 0 ∧ (0 : Nat) ≠ 5 := by
  exact ⟨rfl, by decide⟩

/-- C7 (amended): the fallback provider is consulted only when the primary
throws; in that case the aggregate counts the fallback's fixtures (zero when
the fallback also errors), while a primary that returns normally — even with
zero fixtures — fixes the aggregate at its own count; the run itself always
returns normally. -/
theorem c7_amended_fallback :
    (∀ (e : String) (n : Nat), fetchAndStoreUpcoming (Except.error e) (Except.ok n) = n) ∧
    (∀ (e e2 : String), fetchAndStoreUpcoming (Except.error e) (Except.error e2) = 0) ∧
    (∀ (n : Nat) (fb : Except String Nat), fetchAndStoreUpcoming (Except.ok n) fb = n) ∧
    (∀ (e : String) (p : Nat × Nat), fetchAndStoreMatchesAgg (Except.error e) (Except.ok p) = p) ∧
    (∀ (e e2 : String), fetchAndStoreMatchesAgg (Except.error e) (Except.error e2) = (0, 0)) ∧
    (∀ (n : Nat) (fb : Except String (Nat × Nat)),
        fetchAndStoreMatchesAgg (Except.ok n) fb = (n, 0)) := by
  refine ⟨fun _ _ => rfl, fun _ _ => rfl, fun _ _ => rfl, fun _ _ => rfl, fun _ _ => rfl,
    fun _ _ => rfl⟩

/-- C2: evaluating the ingestion upsert at the failing input — a stored
finished fixture with `static_id = 7` re-ingested from a stale payload whose
status is `scheduled`.  No duplicate record is created, but the stored status
is blindly overwritten back to `scheduled`, violating the claimed
monotonicity. -/
theorem c2_status_regression :
    ingestGoalserveBatch
        [(7, { status := "finished", matchDateUtc := some 1568907000,
               time := some "15:30", league := some "Premier League" })]
        [{ static_id := 7, date := none, time := none, status := "scheduled", league := none }] =
      [(7, { status := "scheduled", matchDateUtc := some 1568907000,
             time := some "15:30", league := some "Premier League" })] ∧
    storeStatus
        (ingestGoalserveBatch
          [(7, { status := "finished", matchDateUtc := some 1568907000,
                 time := some "15:30", league := some "Premier League" })]
          [{ static_id := 7, date := none, time := none, status := "scheduled", league := none }])
        7 = some "scheduled" := by
  refine ⟨by decide, by decide⟩

/-- C5: evaluating the ingestion loop at the failing input — a parsed fixture
whose date string defeats every parsing strategy.  The date parser returns
`none`, yet the fixture is still upserted (with the kickoff fields simply
omitted) instead of being dropped. -/
theorem c5_unparseable_date_still_stored :
    parseGoalserveDate (some "garbage-date") none = none ∧
    ingestGoalserveBatch []
        [{ static_id := 5, date := some "garbage-date", time := none,
           status := "scheduled", league := none }] =
      [(5, { status := "scheduled", matchDateUtc := none, time := none, league := none })] := by
  refine ⟨by decide, by decide⟩

/-- Floor division of a small non-negative integer by 12 is zero. -/
theorem fdiv12_zero (k : Int) (h0 : 0 ≤ k) (h : k < 12) : Int.fdiv k 12 = 0 := by
  interval_cases k <;> rfl

/-- Euclidean remainder of a small non-negative integer by 12 is itself. -/
theorem emod12_self (k : Int) (h0 : 0 ≤ k) (h : k < 12) : Int.emod k 12 = k := by
  interval_cases k <;> rfl

/-- For an in-range month `1 ≤ m ≤ 12`, ECMAScript's `MakeDay` on the month
index `m - 1` agrees with plain civil-calendar day reckoning. -/
theorem makeDayJS_eq_daysFromCivil (y m d : Int) (h1 : 1 ≤ m) (h2 : m ≤ 12) :
    makeDayJS y (m - 1) d = daysFromCivil y m d := by
  unfold makeDayJS
  rw [fdiv12_zero (m - 1) (by omega) (by omega), emod12_self (m - 1) (by omega) (by omega)]
  norm_num

/-- C4: date-parsing correctness.  (a) The concrete anchor: date `"19.09.2019"`
with time `"15:30"` parses to the UTC instant 2019-09-19T15:30:00Z
(epoch second 1568907000).  (b) Every `DD.MM.YYYY` date string with an
`HH:MM` time string parses to UTC midnight of that civil day plus the given
time-of-day.  (c) With a missing or malformed time string the time defaults
to 00:00. -/
theorem c4_parse_goalserve_date :
    parseGoalserveDate (some "19.09.2019") (some "15:30") = some 1568907000 ∧
    (∀ (ds ts : String) (d m y hh mi : Int),
      ddmmTest ds = true → ddmmParts ds = (d, m, y) →
      timeTest ts = true → timeParts ts = (hh, mi) →
      1 ≤ m → m ≤ 12 →
      parseGoalserveDate (some ds) (some ts) =
        some (daysFromCivil y m d * 86400 + hh * 3600 + mi * 60)) ∧
    (∀ (ds : String) (d m y : Int),
      ddmmTest ds = true → ddmmParts ds = (d, m, y) →
      1 ≤ m → m ≤ 12 →
      parseGoalserveDate (some ds) none = some (daysFromCivil y m d * 86400) ∧
      ∀ ts : String, timeTest ts = false →
        parseGoalserveDate (some ds) (some ts) = some (daysFromCivil y m d * 86400)) := by
  refine ⟨by decide, ?_, ?_⟩
  · intro ds ts d m y hh mi hdd hparts htt htp hm1 hm2
    have hne : ds ≠ "" := by
      intro he; rw [he] at hdd; exact absurd hdd (by decide)
    have hts : timeOrMidnight (some ts) = (hh, mi) := by
      have htsne : ts ≠ "" := by
        intro he; rw [he] at htt; exact absurd htt (by decide)
      simp [timeOrMidnight, htsne, htt, htp]
    simp only [parseGoalserveDate, if_neg hne, if_pos hdd, hparts, hts]
    rw [dateUTCsec, makeDayJS_eq_daysFromCivil y m d hm1 hm2]
  · intro ds d m y hdd hparts hm1 hm2
    have hne : ds ≠ "" := by
      intro he; rw [he] at hdd; exact absurd hdd (by decide)
    constructor
    · have hmid : timeOrMidnight none = ((0 : Int), (0 : Int)) := rfl
      simp only [parseGoalserveDate, if_neg hne, if_pos hdd, hparts, hmid]
      rw [dateUTCsec, makeDayJS_eq_daysFromCivil y m d hm1 hm2]
      norm_num
    · intro ts hbad
      have hmid : timeOrMidnight (some ts) = ((0 : Int), (0 : Int)) := by
        simp [timeOrMidnight, hbad]
      simp only [parseGoalserveDate, if_neg hne, if_pos hdd, hparts, hmid]
      rw [dateUTCsec, makeDayJS_eq_daysFromCivil y m d hm1 hm2]
      norm_num

/-- C4 witness: the general clauses applied at the concrete anchor input
`"19.09.2019"` / `"15:30"` (and the default-time clause at a malformed time
string). -/
theorem c4_parse_goalserve_date_witness :
    (ddmmTest "19.09.2019" = true ∧ ddmmParts "19.09.2019" = (19, 9, 2019) ∧
     timeTest "15:30" = true ∧ timeParts "15:30" = (15, 30)) ∧
    parseGoalserveDate (some "19.09.2019") (some "15:30") =
      some (daysFromCivil 2019 9 19 * 86400 + 15 * 3600 + 30 * 60) ∧
    parseGoalserveDate (some "19.09.2019") none = some (daysFromCivil 2019 9 19 * 86400) :=
  ⟨⟨by decide, by decide, by decide, by decide⟩,
   c4_parse_goalserve_date.2.1 "19.09.2019" "15:30" 19 9 2019 15 30
     (by decide) (by decide) (by decide) (by decide) (by decide) (by decide),
   (c4_parse_goalserve_date.2.2 "19.09.2019" 19 9 2019
     (by decide) (by decide) (by decide) (by decide)).1⟩

/-! ## Concrete oracle fixtures for the forecast-generation claims -/

/-- A JSON rendering of a forecast object that passes the zod schema. -/
def validForecastJson : String :=
  "\x7b\"oneXTwo\":\x7b\"home\":0.6,\"draw\":0.2,\"away\":0.2\x7d,\"doubleChance\":\x7b\"homeOrDraw\":0.8,\"homeOrAway\":0.8,\"drawOrAway\":0.4\x7d,\"over05\":0.9,\"over15\":0.7,\"over25\":0.5,\"bttsYes\":0.5,\"bttsNo\":0.5,\"confidence\":95,\"bucket\":\"vip\"\x7d"

/-- The forecast `validForecastJson` parses and validates to. -/
def validForecast : Forecast :=
  { oneXTwo := { home := Rat.divInt 3 5, draw := Rat.divInt 1 5, away := Rat.divInt 1 5 },
    doubleChance := { homeOrDraw := Rat.divInt 4 5, homeOrAway := Rat.divInt 4 5,
                      drawOrAway := Rat.divInt 2 5 },
    over05 := Rat.divInt 9 10, over15 := Rat.divInt 7 10, over25 := Rat.divInt 1 2,
    bttsYes := Rat.divInt 1 2, bttsNo := Rat.divInt 1 2, confidence := 95, bucket := "vip" }

/-- A schema-valid forecast whose confidence is 84, below the configured
minimum of 90. -/
def lowConfForecast : Forecast :=
  { oneXTwo := { home := Rat.divInt 1 2, draw := Rat.divInt 1 4, away := Rat.divInt 1 4 },
    doubleChance := { homeOrDraw := Rat.divInt 3 4, homeOrAway := Rat.divInt 3 4,
                      drawOrAway := Rat.divInt 1 2 },
    over05 := Rat.divInt 9 10, over15 := Rat.divInt 7 10, over25 := Rat.divInt 1 2,
    bttsYes := Rat.divInt 1 2, bttsNo := Rat.divInt 1 2, confidence := 84, bucket := "vip" }

/-- An oracle whose every response is a one-element array holding the valid
forecast object. -/
def alwaysValidOracle : String → Nat → Option String :=
  fun _ _ => some ("[" ++ validForecastJson ++ "]")

/-- C6: the confidence filter.  Whatever the oracle returns, every forecast in
a successful result of `getPredictionsFromAI` has confidence at least 90; and
a schema-valid forecast with confidence 84 is discarded by the
post-processing, so it is never returned (nor persisted by the caller). -/
theorem c6_confidence_filter (oracle : String → Nat → Option String)
    (l : List Forecast) (p : Forecast)
    (hok : getPredictionsFromAI oracle = Except.ok l) (hp : p ∈ l) :
    90 ≤ p.confidence ∧ postProcessForecasts [lowConfForecast] = [] := by
  refine ⟨?_, by decide⟩
  unfold getPredictionsFromAI at hok
  cases hc : callGenerativeAI oracle with
  | error e => rw [hc] at hok; exact absurd hok (by simp [Except.map])
  | ok l0 =>
    rw [hc] at hok
    simp only [Except.map, Except.ok.injEq] at hok
    subst hok
    rcases List.mem_filter.mp hp with ⟨-, h2⟩
    simpa using h2

set_option maxRecDepth 16000 in
/-- C6 witness: the filter theorem applied to the constant valid-forecast
oracle, whose single returned forecast has confidence 95. -/
theorem c6_confidence_filter_witness :
    (getPredictionsFromAI alwaysValidOracle = Except.ok [validForecast] ∧
      validForecast ∈ [validForecast]) ∧
    (90 ≤ validForecast.confidence ∧ postProcessForecasts [lowConfForecast] = []) :=
  ⟨⟨by rfl, by decide⟩,
   c6_confidence_filter alwaysValidOracle [validForecast] validForecast (by rfl) (by decide)⟩

/-- The mixed oracle response: a JSON array holding one schema-valid forecast
object followed by one schema-invalid object. -/
def mixedArrayJson : String :=
  "[" ++ validForecastJson ++ ",\x7b\"oneXTwo\":\"bad\"\x7d]"

/-- The oracle of the C8 counterexample: the second model in the priority
list answers with the mixed array on every attempt, every other model with
prose containing no JSON. -/
def mixedOracle : String → Nat → Option String :=
  fun modelName _ =>
    if modelName = "gemini-2.5-pro" then some mixedArrayJson
    else some "the oracle returned no JSON at all"

/-- The first element of a parsed JSON array, if any. -/
def firstArrItem : Option Jv → Option Jv
  | some (Jv.arr (x :: _)) => some x
  | _ => none

/-- A prefix of models that all fail both attempts is skipped by the fallback
loop. -/
theorem callModelsLoop_skip (oracle : String → Nat → Option String)
    (pre ms : List String)
    (h : ∀ n ∈ pre, tryModelAttempts oracle n = none) :
    callModelsLoop oracle (pre ++ ms) = callModelsLoop oracle ms := by
  induction pre with
  | nil => rfl
  | cons a as ih =>
    have ha : tryModelAttempts oracle a = none := h a (List.mem_cons_self a as)
    rw [List.cons_append, callModelsLoop, ha]
    exact ih (fun n hn => h n (List.mem_cons_of_mem a hn))

/-- When every model fails both attempts, the fallback loop ends in the final
error. -/
theorem callModelsLoop_all_fail (oracle : String → Nat → Option String)
    (ms : List String)
    (h : ∀ n ∈ ms, tryModelAttempts oracle n = none) :
    callModelsLoop oracle ms =
      Except.error "AI: All models failed to generate predictions." := by
  induction ms with
  | nil => rfl
  | cons a as ih =>
    have ha : tryModelAttempts oracle a = none := h a (List.mem_cons_self a as)
    rw [callModelsLoop, ha]
    exact ih (fun n hn => h n (List.mem_cons_of_mem a hn))

set_option maxRecDepth 40000 in
/-- C8 counterexample: the first model returns invalid JSON on both attempts
and the second model's response contains a schema-valid object, yet
`callGenerativeAI` fails with the all-models-failed error — a single invalid
object in the array makes the whole attempt fail, so "at least one
schema-valid object" does not suffice. -/
theorem c8_counterexample :
    attemptParse (mixedOracle "gemini-2.5-flash" 0) = none ∧
    attemptParse (mixedOracle "gemini-2.5-flash" 1) = none ∧
    ((firstArrItem (extractJSONFromText (some mixedArrayJson))).bind schemaParse).isSome
      = true ∧
    callGenerativeAI mixedOracle =
      Except.error "AI: All models failed to generate predictions." :=
  ⟨by decide, by decide, by rfl, by rfl⟩

/-- C8 (amended): if every model before some model `mName` in the priority
list fails to produce a fully validated response on both of its attempts
while one of `mName`'s attempts parses and validates in full, the generator
proceeds past the failing models and returns that attempt's forecast list;
and an oracle for which every model fails both attempts makes the call end in
the all-models-failed error. -/
theorem c8_amended_model_fallback
    (oracle oracle2 : String → Nat → Option String)
    (pre rest : List String) (mName : String) (l : List Forecast)
    (hmodels : aiModels = pre ++ mName :: rest)
    (hpre : ∀ n ∈ pre,
      attemptParse (oracle n 0) = none ∧ attemptParse (oracle n 1) = none)
    (hm : tryModelAttempts oracle mName = some l)
    (hall : ∀ n ∈ aiModels,
      attemptParse (oracle2 n 0) = none ∧ attemptParse (oracle2 n 1) = none) :
    callGenerativeAI oracle = Except.ok l ∧
    callGenerativeAI oracle2 =
      Except.error "AI: All models failed to generate predictions." := by
  constructor
  · unfold callGenerativeAI
    rw [hmodels, callModelsLoop_skip oracle pre (mName :: rest) ?_]
    · rw [callModelsLoop, hm]
    · intro n hn
      rcases hpre n hn with ⟨h0, h1⟩
      simp [tryModelAttempts, h0, h1]
  · unfold callGenerativeAI
    refine callModelsLoop_all_fail oracle2 aiModels ?_
    intro n hn
    rcases hall n hn with ⟨h0, h1⟩
    simp [tryModelAttempts, h0, h1]

/-- The oracle of the C8 witness: the first model answers prose, every other
model the valid one-element array. -/
def fallbackOracle : String → Nat → Option String :=
  fun modelName _ =>
    if modelName = "gemini-2.5-flash" then some "the oracle returned no JSON at all"
    else some ("[" ++ validForecastJson ++ "]")

/-- An oracle that never returns JSON. -/
def proseOracle : String → Nat → Option String :=
  fun _ _ => some "the oracle returned no JSON at all"

set_option maxRecDepth 40000 in
/-- C8 witness: the amended fallback theorem applied to a first model that
always fails and a second model whose first attempt validates. -/
theorem c8_amended_model_fallback_witness :
    (aiModels = ["gemini-2.5-flash"] ++ "gemini-2.5-pro" ::
        ["gemini-2.0-flash", "gemini-2.0-pro", "gemini-1.5-flash", "gemini-1.5-pro"] ∧
      (∀ n ∈ ["gemini-2.5-flash"],
        attemptParse (fallbackOracle n 0) = none ∧ attemptParse (fallbackOracle n 1) = none) ∧
      tryModelAttempts fallbackOracle "gemini-2.5-pro" = some [validForecast] ∧
      (∀ n ∈ aiModels,
        attemptParse (proseOracle n 0) = none ∧ attemptParse (proseOracle n 1) = none)) ∧
    (callGenerativeAI fallbackOracle = Except.ok [validForecast] ∧
      callGenerativeAI proseOracle =
        Except.error "AI: All models failed to generate predictions.") :=
  ⟨⟨rfl, by decide, by rfl, by decide⟩,
   c8_amended_model_fallback fallbackOracle proseOracle
     ["gemini-2.5-flash"]
     ["gemini-2.0-flash", "gemini-2.0-pro", "gemini-1.5-flash", "gemini-1.5-pro"]
     "gemini-2.5-pro" [validForecast] rfl (by decide) (by rfl) (by decide)⟩

/-- Whether a JSON value is an array or an object. -/
def Jv.isArrOrObj : Jv → Bool
  | Jv.arr _ => true
  | Jv.obj _ => true
  | _ => false

/-- C10 counterexample: the extractor is total, but it does not return only
arrays and objects — on the input `"42"` the first strategy's `JSON.parse`
succeeds and the bare number 42 is returned. -/
theorem c10_counterexample :
    extractJSONFromText (some "42") = some (Jv.num 42) ∧
    (extractJSONFromText (some "42")).map Jv.isArrOrObj = some false :=
  ⟨rfl, rfl⟩

/-- A bracket-extraction strategy only ever returns the result of a full
`JSON.parse` of its candidate slice. -/
theorem bracketStrategy_sound (opc clc : Char) (cs : List Char) (v : Jv)
    (h : (match extractBalanced opc clc cs with
          | some cand => jsonParse (String.mk cand)
          | none => none) = some v) :
    ∃ t : String, jsonParse t = some v := by
  cases hx : extractBalanced opc clc cs with
  | none => rw [hx] at h; exact absurd h (by simp)
  | some cand => rw [hx] at h; exact ⟨String.mk cand, h⟩

/-- C10 (amended): the extractor is total — every non-string or empty input
yields `none`, and whenever it returns a value, that value is the complete
`JSON.parse` of some string (the cleaned text or a balanced-bracket slice of
it); it never returns a partially parsed or non-JSON value, though the value
may be any JSON value, not only an array or object. -/
theorem c10_extractor_sound (s : Option String) (v : Jv)
    (h : extractJSONFromText s = some v) :
    ∃ t : String, jsonParse t = some v := by
  cases s with
  | none => exact absurd h (by simp [extractJSONFromText])
  | some text =>
    by_cases he : text = ""
    · subst he
      exact absurd h (by simp [extractJSONFromText])
    · simp only [extractJSONFromText] at h
      rw [if_neg he] at h
      split at h
      · rename_i v1 heq
        exact ⟨_, heq.trans h⟩
      · split at h
        · rename_i v1 heq2
          split at heq2
          · rename_i cand heq3
            exact ⟨String.mk cand, heq2.trans h⟩
          · exact Option.noConfusion heq2
        · exact bracketStrategy_sound (Char.ofNat 123) (Char.ofNat 125) _ v h

/-- C10 witness: the soundness theorem applied to a response wrapping a JSON
array in prose. -/
theorem c10_extractor_sound_witness :
    extractJSONFromText (some "see: [1,2]") = some (Jv.arr [Jv.num 1, Jv.num 2]) ∧
    ∃ t : String, jsonParse t = some (Jv.arr [Jv.num 1, Jv.num 2]) :=
  ⟨rfl, c10_extractor_sound (some "see: [1,2]") (Jv.arr [Jv.num 1, Jv.num 2]) rfl⟩

/-- C9 witness: the amended idempotence theorem instantiated at the finished
2-1 fixture with one graded and one triple-free forecast. -/
theorem c9_amended_idempotence_witness :
    evaluatePredictionsForMatch { status := "finished", homeGoals := 2, awayGoals := 1 }
        (evaluatePredictionsForMatch { status := "finished", homeGoals := 2, awayGoals := 1 }
          [{ oneXTwo := some { home := Rat.divInt 3 5, draw := Rat.divInt 1 5,
                               away := Rat.divInt 1 5 }, status := "pending" },
           { oneXTwo := none, status := "won" }]) =
      evaluatePredictionsForMatch { status := "finished", homeGoals := 2, awayGoals := 1 }
        [{ oneXTwo := some { home := Rat.divInt 3 5, draw := Rat.divInt 1 5,
                             away := Rat.divInt 1 5 }, status := "pending" },
         { oneXTwo := none, status := "won" }] :=
  c9_amended_idempotence.1 { status := "finished", homeGoals := 2, awayGoals := 1 }
    [{ oneXTwo := some { home := Rat.divInt 3 5, draw := Rat.divInt 1 5,
                         away := Rat.divInt 1 5 }, status := "pending" },
     { oneXTwo := none, status := "won" }]
